import Mathlib

/-!
Verification of the checker configuration-resolution unit
(`cmd/checker/config.go` of moira): a shallow embedding of the raw
configuration structures, the duration parser used at the resolution call
sites, the parallelism resolver, the log-override compiler, the settings
builder `getSettings`, and the defaults provider `getDefault`, together
with theorems about the resolution pipeline.

Go machine integers (`int`, `int64`) are modelled as `Int`; all values
involved stay far below 2^63, so wrap-around is irrelevant and no modular
reduction is inserted.  `time.Duration` is an `int64` count of
nanoseconds, modelled as `Int`.
-/

namespace CheckerConfig

/-- One entry of the `set_log_level.triggers` list: a trigger identifier
paired with a log level (`triggerLogConfig` in the source). -/
structure triggerLogConfig where
  ID : String
  Level : String
deriving DecidableEq, Repr

/-- The checker section of the raw configuration (`checkerConfig` in the
source).  `SetLogLevel` is the `TriggersToLevel` list of the nested
`triggersLogConfig`; interval fields are raw strings; concurrency fields
are signed integers.  A field omitted from a Go struct literal takes the
zero value of its type: `""`, `0`, or the empty list. -/
structure checkerConfig where
  NoDataCheckInterval : String
  StopCheckingInterval : String
  CheckInterval : String
  LazyTriggersCheckInterval : String
  MaxParallelChecks : Int
  MaxParallelRemoteChecks : Int
  MaxParallelPrometheusChecks : Int
  SetLogLevel : List triggerLogConfig
  MetricEventPopBatchSize : Int
  MetricEventPopDelay : String
deriving DecidableEq, Repr

/-- The resolved settings object (`checker.Config`; its declaration lives
in the `checker` package outside the studied file, field names and types
taken from the call site and the spec's output surface).  Durations are
nanosecond counts; the override table is an association list with
pairwise-distinct keys standing for the Go `map[string]string`. -/
structure Config where
  CheckInterval : Int
  LazyTriggersCheckInterval : Int
  NoDataCheckInterval : Int
  StopCheckingIntervalSeconds : Int
  MaxParallelLocalChecks : Int
  MaxParallelRemoteChecks : Int
  MaxParallelPrometheusChecks : Int
  LogTriggersToLevel : List (String × String)
  MetricEventPopBatchSize : Int
  MetricEventPopDelay : Int
deriving DecidableEq, Repr

/-- One informational record emitted through the logger during
resolution: the integer field's key, its value, and the message. -/
structure LogRecord where
  key : String
  value : Int
  msg : String
deriving DecidableEq, Repr

/-- Value of a digit character. -/
def digitVal (c : Char) : Nat := c.toNat - 48

/-- Decimal value of a digit string. -/
def digitsToNat (ds : List Char) : Nat :=
  ds.foldl (fun n c => n * 10 + digitVal c) 0

/-- Nanoseconds per unit suffix of the duration grammar. -/
def unitNanos : String → Option Int
  | "ns" => some 1
  | "us" => some 1000
  | "µs" => some 1000
  | "ms" => some 1000000
  | "s" => some 1000000000
  | "m" => some 60000000000
  | "h" => some 3600000000000
  | "d" => some 86400000000000
  | _ => none

/-- Parse a sequence of `<digits><unit>` segments, summing their
nanosecond values; `none` on any non-conforming segment.  The fuel
argument bounds recursion depth; each step consumes at least one
character, so fuel equal to the input length suffices. -/
def parseSegments : Nat → List Char → Option Int
  | _, [] => some 0
  | 0, _ :: _ => none
  | fuel + 1, c :: cs =>
    let ds := (c :: cs).takeWhile Char.isDigit
    let afterDigits := (c :: cs).dropWhile Char.isDigit
    if ds.isEmpty then none
    else
      let us := afterDigits.takeWhile (fun ch => !ch.isDigit)
      let rest := afterDigits.dropWhile (fun ch => !ch.isDigit)
      match unitNanos (String.mk us) with
      | none => none
      | some u =>
        match parseSegments fuel rest with
        | none => none
        | some t => some ((digitsToNat ds : Int) * u + t)

/-- Modelled from the spec: the duration parser (`to.Duration` of the
external `github.com/xiam/to` dependency, whose source is not part of
this repository) — compound unit-suffixed notation with at least
seconds, minutes, hours and days and sub-second precision (spec §4.1).
Totality comes from the call sites in `getSettings`: `to.Duration` is
used infallibly in a struct literal (it returns a `time.Duration` and no
error), so a non-conforming string yields the zero duration rather than
a failure. -/
def toDuration (s : String) : Int :=
  match s.data with
  | [] => 0
  | c :: cs =>
    if c = '-' then
      match parseSegments cs.length cs with
      | some n => -n
      | none => 0
    else
      match parseSegments (c :: cs).length (c :: cs) with
      | some n => n
      | none => 0

/-- `int64(d.Seconds())` for a duration `d` in nanoseconds: the float64
seconds value truncated toward zero.  Integer truncating division
(`Int.tdiv`) agrees with the Go float computation exactly for
|d| < 2^53 ns (≈ 104 days), which covers every interval this
configuration carries. -/
def durationSeconds (d : Int) : Int := Int.tdiv d 1000000000

/-- Insertion into the override table, with the extensional semantics of
the Go map assignment `m[k] = v`: overwrite the entry under `k` when one
exists, otherwise add a new entry. -/
def mapInsert (m : List (String × String)) (k v : String) : List (String × String) :=
  if m.any (fun p => p.1 = k) then
    m.map (fun p => if p.1 = k then (k, v) else p)
  else m ++ [(k, v)]

/-- Lookup in the override table. -/
def mapLookup (m : List (String × String)) (k : String) : Option String :=
  (m.find? (fun p => decide (p.1 = k))).map Prod.snd

/-- The override-compilation loop of `getSettings`:
`for _, v := range config.SetLogLevel.TriggersToLevel { m[v.ID] = v.Level }`. -/
def buildLogTriggersToLevel (l : List triggerLogConfig) : List (String × String) :=
  l.foldl (fun m v => mapInsert m v.ID v.Level) []

/-- `handleParallelChecks` of the source: substitute the CPU count when
the configured value is exactly zero and report whether a substitution
happened.  The Go function takes the field by pointer and `runtime.NumCPU()`
implicitly; the pointer is never nil at the call sites (addresses of
struct fields), and the CPU count is passed explicitly here so that the
host query is injectable. -/
def handleParallelChecks (numCPU : Int) (parallelChecks : Int) : Int × Bool :=
  if parallelChecks = 0 then (numCPU, true) else (parallelChecks, false)

/-- `getSettings` of the source.  The Go method has a pointer receiver
and mutates the zero-valued concurrency fields of its receiver, so the
model returns the updated raw configuration alongside the resolved
settings; informational records are returned as an explicit list in
emission order.  The three concurrency fields are updated independently
of each other, so reading each from the original `config` is equivalent
to the source's sequential in-place updates. -/
def getSettings (config : checkerConfig) (numCPU : Int) :
    checkerConfig × Config × List LogRecord :=
  let logTriggersToLevel := buildLogTriggersToLevel config.SetLogLevel
  let log0 : LogRecord :=
    { key := "number_of_triggers", value := (logTriggersToLevel.length : Int),
      msg := "Found dynamic log rules in config for some triggers" }
  let r1 := handleParallelChecks numCPU config.MaxParallelChecks
  let r2 := handleParallelChecks numCPU config.MaxParallelRemoteChecks
  let r3 := handleParallelChecks numCPU config.MaxParallelPrometheusChecks
  let logs1 : List LogRecord :=
    if r1.2 then
      [{ key := "number_of_cpu", value := r1.1,
         msg := "MaxParallelChecks is not configured, set it to the number of CPU" }]
    else []
  let logs2 : List LogRecord :=
    if r2.2 then
      [{ key := "number_of_cpu", value := r2.1,
         msg := "MaxParallelRemoteChecks is not configured, set it to the number of CPU" }]
    else []
  let logs3 : List LogRecord :=
    if r3.2 then
      [{ key := "number_of_cpu", value := r3.1,
         msg := "MaxParallelPrometheusChecks is not configured, set it to the number of CPU" }]
    else []
  let config' : checkerConfig :=
    { config with
      MaxParallelChecks := r1.1
      MaxParallelRemoteChecks := r2.1
      MaxParallelPrometheusChecks := r3.1 }
  let resolved : Config :=
    { CheckInterval := toDuration config'.CheckInterval
      LazyTriggersCheckInterval := toDuration config'.LazyTriggersCheckInterval
      NoDataCheckInterval := toDuration config'.NoDataCheckInterval
      StopCheckingIntervalSeconds := durationSeconds (toDuration config'.StopCheckingInterval)
      MaxParallelLocalChecks := config'.MaxParallelChecks
      MaxParallelRemoteChecks := config'.MaxParallelRemoteChecks
      MaxParallelPrometheusChecks := config'.MaxParallelPrometheusChecks
      LogTriggersToLevel := logTriggersToLevel
      MetricEventPopBatchSize := config'.MetricEventPopBatchSize
      MetricEventPopDelay := toDuration config'.MetricEventPopDelay }
  (config', resolved, log0 :: (logs1 ++ logs2 ++ logs3))

/-- The checker section of `getDefault` of the source.  The Go struct
literal sets only `NoDataCheckInterval`, `CheckInterval`,
`LazyTriggersCheckInterval`, `StopCheckingInterval`,
`MaxParallelChecks` and `MaxParallelRemoteChecks`; every other field
takes its Go zero value.  The sibling sections (redis, log, telemetry,
remote, prometheus) configure external collaborators and are not part of
the studied resolution pipeline. -/
def getDefault : checkerConfig :=
  { NoDataCheckInterval := "60s"
    CheckInterval := "5s"
    LazyTriggersCheckInterval := "10m"
    StopCheckingInterval := "30s"
    MaxParallelChecks := 0
    MaxParallelRemoteChecks := 0
    MaxParallelPrometheusChecks := 0
    SetLogLevel := []
    MetricEventPopBatchSize := 0
    MetricEventPopDelay := "" }

/-- The informational record of `getSettings` reporting the number of
compiled log-override entries. -/
def overrideCountRecord (count : Int) : LogRecord :=
  ⟨"number_of_triggers", count, "Found dynamic log rules in config for some triggers"⟩

/-- The informational record reporting the CPU-count substitution for
`MaxParallelChecks`. -/
def localSubstRecord (n : Int) : LogRecord :=
  ⟨"number_of_cpu", n, "MaxParallelChecks is not configured, set it to the number of CPU"⟩

/-- The informational record reporting the CPU-count substitution for
`MaxParallelRemoteChecks`. -/
def remoteSubstRecord (n : Int) : LogRecord :=
  ⟨"number_of_cpu", n, "MaxParallelRemoteChecks is not configured, set it to the number of CPU"⟩

/-- The informational record reporting the CPU-count substitution for
`MaxParallelPrometheusChecks`. -/
def prometheusSubstRecord (n : Int) : LogRecord :=
  ⟨"number_of_cpu", n, "MaxParallelPrometheusChecks is not configured, set it to the number of CPU"⟩

/-- Spec-side characterization of last-write-wins: the level of the last
occurrence of identifier `k` in the override list, `none` when `k` does
not occur.  Stated in the spec's words (the level associated with an
identifier is that of its last occurrence in the input order) to be
compared with the table the code builds. -/
def lastLevel : List triggerLogConfig → String → Option String
  | [], _ => none
  | v :: t, k =>
    match lastLevel t k with
    | some x => some x
    | none => if v.ID = k then some v.Level else none

/-- A raw configuration with a malformed check-interval string: the
defaults with `check_interval = "abc"`. -/
def cfgMalformed : checkerConfig := { getDefault with CheckInterval := "abc" }

/-- A raw configuration with a negative concurrency limit: the defaults
with `max_parallel_checks = -1`. -/
def cfgNegative : checkerConfig := { getDefault with MaxParallelChecks := -1 }

/-- A raw configuration with a fractional stop-checking interval: the
defaults with `stop_checking_interval = "1500ms"`. -/
def cfg1500 : checkerConfig := { getDefault with StopCheckingInterval := "1500ms" }

/-- Inserting under a key equal to the head's key overwrites in place. -/
theorem mapInsert_cons_eq (p : String × String) (t : List (String × String))
    (k v : String) (hp : p.1 = k) :
    mapInsert (p :: t) k v =
      (k, v) :: t.map (fun q => if q.1 = k then (k, v) else q) := by
  unfold mapInsert
  rw [if_pos]
  · simp [hp]
  · simp [List.any_cons, hp]

/-- Inserting under a key different from the head's key passes the head
through. -/
theorem mapInsert_cons_ne (p : String × String) (t : List (String × String))
    (k v : String) (hp : p.1 ≠ k) :
    mapInsert (p :: t) k v = p :: mapInsert t k v := by
  unfold mapInsert
  simp only [List.any_cons, hp, decide_eq_true_eq, Bool.false_or, decide_eq_false_iff_not,
    not_false_iff]
  by_cases ht : t.any (fun q => decide (q.1 = k)) = true
  · rw [if_pos, if_pos ht]
    · simp [hp]
    · simpa [hp] using ht
  · rw [if_neg, if_neg ht]
    · simp
    · simpa [hp] using ht

/-- Lookup at the head's key. -/
theorem mapLookup_cons_eq (p : String × String) (t : List (String × String))
    (k : String) (hp : p.1 = k) :
    mapLookup (p :: t) k = some p.2 := by
  simp [mapLookup, List.find?_cons_of_pos, hp]

/-- Lookup skips a head with a different key. -/
theorem mapLookup_cons_ne (p : String × String) (t : List (String × String))
    (k : String) (hp : p.1 ≠ k) :
    mapLookup (p :: t) k = mapLookup t k := by
  simp [mapLookup, List.find?_cons_of_neg, hp]

/-- After inserting `(k, v)`, lookup at `k` yields `v`. -/
theorem mapLookup_mapInsert_self (m : List (String × String)) (k v : String) :
    mapLookup (mapInsert m k v) k = some v := by
  induction m with
  | nil => simp [mapInsert, mapLookup]
  | cons p t ih =>
    by_cases hp : p.1 = k
    · rw [mapInsert_cons_eq p t k v hp, mapLookup_cons_eq]
      rfl
    · rw [mapInsert_cons_ne p t k v hp, mapLookup_cons_ne _ _ _ hp]
      exact ih

/-- The overwrite pass of `mapInsert` does not change lookups at other
keys. -/
theorem mapLookup_map_other (t : List (String × String)) (k v k' : String) (hk : k' ≠ k) :
    mapLookup (t.map (fun q => if q.1 = k then (k, v) else q)) k' = mapLookup t k' := by
  induction t with
  | nil => rfl
  | cons q t ih =>
    by_cases hq : q.1 = k
    · rw [List.map_cons, if_pos hq, mapLookup_cons_ne _ _ _ (by simpa using hk.symm),
        mapLookup_cons_ne _ _ _ (by rw [hq]; exact fun h => hk h.symm)]
      exact ih
    · rw [List.map_cons, if_neg hq]
      by_cases hq' : q.1 = k'
      · rw [mapLookup_cons_eq _ _ _ hq', mapLookup_cons_eq _ _ _ hq']
      · rw [mapLookup_cons_ne _ _ _ hq', mapLookup_cons_ne _ _ _ hq']
        exact ih

/-- Inserting `(k, v)` does not change lookups at other keys. -/
theorem mapLookup_mapInsert_ne (m : List (String × String)) (k v k' : String)
    (hk : k' ≠ k) :
    mapLookup (mapInsert m k v) k' = mapLookup m k' := by
  induction m with
  | nil =>
    simp [mapInsert, mapLookup, List.find?, hk.symm]
  | cons p t ih =>
    by_cases hp : p.1 = k
    · rw [mapInsert_cons_eq p t k v hp,
        mapLookup_cons_ne _ _ _ (fun h => hk h.symm),
        mapLookup_cons_ne _ _ _ (by rw [hp]; exact fun h => hk h.symm)]
      exact mapLookup_map_other t k v k' hk
    · rw [mapInsert_cons_ne p t k v hp]
      by_cases hp' : p.1 = k'
      · rw [mapLookup_cons_eq _ _ _ hp', mapLookup_cons_eq _ _ _ hp']
      · rw [mapLookup_cons_ne _ _ _ hp', mapLookup_cons_ne _ _ _ hp']
        exact ih

/-- Master lemma for the override-compilation loop: lookup in the table
folded from `l` on top of an accumulator `m` yields the last level for
the key in `l` when present, else the accumulator's binding. -/
theorem mapLookup_foldl_mapInsert (l : List triggerLogConfig) :
    ∀ (m : List (String × String)) (k : String),
      mapLookup (l.foldl (fun acc v => mapInsert acc v.ID v.Level) m) k =
        match lastLevel l k with
        | some x => some x
        | none => mapLookup m k := by
  induction l with
  | nil => intro m k; rfl
  | cons v t ih =>
    intro m k
    rw [List.foldl_cons, ih]
    cases hl : lastLevel t k with
    | some x => simp [lastLevel, hl]
    | none =>
      by_cases hv : v.ID = k
      · simp only [lastLevel, hl, if_pos hv]
        rw [← hv, mapLookup_mapInsert_self]
      · simp only [lastLevel, hl, if_neg hv]
        exact mapLookup_mapInsert_ne _ _ _ _ (fun h => hv h.symm)

/-- Key list after an insert: unchanged when the key is present, extended
by the key otherwise. -/
theorem mapInsert_map_fst (m : List (String × String)) (k v : String) :
    (mapInsert m k v).map Prod.fst =
      if k ∈ m.map Prod.fst then m.map Prod.fst else m.map Prod.fst ++ [k] := by
  unfold mapInsert
  by_cases h : k ∈ m.map Prod.fst
  · rw [if_pos, if_pos h]
    · rw [List.map_map]
      refine List.map_congr_left ?_
      intro p _
      by_cases hp : p.1 = k
      · simp [hp]
      · simp [hp]
    · obtain ⟨p, hp, hpk⟩ := List.mem_map.mp h
      simp only [List.any_eq_true, decide_eq_true_eq]
      exact ⟨p, hp, hpk⟩
  · rw [if_neg, if_neg h]
    · simp
    · simp only [List.any_eq_true, decide_eq_true_eq, not_exists]
      rintro p ⟨hp, hpk⟩
      exact h (List.mem_map.mpr ⟨p, hp, hpk⟩)

/-- A key is in the folded table exactly when it is in the accumulator or
is the identifier of some override entry. -/
theorem mem_map_fst_foldl (l : List triggerLogConfig) :
    ∀ (m : List (String × String)) (k : String),
      (k ∈ (l.foldl (fun acc v => mapInsert acc v.ID v.Level) m).map Prod.fst ↔
        k ∈ m.map Prod.fst ∨ k ∈ l.map triggerLogConfig.ID) := by
  induction l with
  | nil => intro m k; simp
  | cons v t ih =>
    intro m k
    rw [List.foldl_cons, ih]
    rw [mapInsert_map_fst]
    by_cases hv : v.ID ∈ m.map Prod.fst
    · rw [if_pos hv]
      simp only [List.map_cons, List.mem_cons]
      constructor
      · rintro (h | h)
        · exact Or.inl h
        · exact Or.inr (Or.inr h)
      · rintro (h | h | h)
        · exact Or.inl h
        · exact Or.inl (h ▸ hv)
        · exact Or.inr h
    · rw [if_neg hv]
      simp only [List.mem_append, List.mem_singleton, List.map_cons, List.mem_cons]
      tauto

/-- Folding override entries preserves distinctness of the table's keys. -/
theorem nodup_map_fst_foldl (l : List triggerLogConfig) :
    ∀ m : List (String × String), (m.map Prod.fst).Nodup →
      ((l.foldl (fun acc v => mapInsert acc v.ID v.Level) m).map Prod.fst).Nodup := by
  induction l with
  | nil => intro m hm; exact hm
  | cons v t ih =>
    intro m hm
    rw [List.foldl_cons]
    refine ih _ ?_
    rw [mapInsert_map_fst]
    by_cases hv : v.ID ∈ m.map Prod.fst
    · rw [if_pos hv]; exact hm
    · rw [if_neg hv]
      simp [List.nodup_append, hm, hv]

/-- The table compiled by `getSettings` realizes the spec's last-write-wins
law: lookup agrees with the last occurrence in the override list. -/
theorem mapLookup_buildLog (l : List triggerLogConfig) (k : String) :
    mapLookup (buildLogTriggersToLevel l) k = lastLevel l k := by
  rw [buildLogTriggersToLevel, mapLookup_foldl_mapInsert]
  cases lastLevel l k with
  | some x => rfl
  | none => rfl

/-- C1 (counterexample): with the defaults except `check_interval = "abc"`,
resolution does not fail — a complete, fully populated `ResolvedSettings`
is returned, with the malformed field silently resolved to the zero
duration instead of raising a malformed-duration error. -/
theorem C1_counterexample :
    (getSettings cfgMalformed 4).2.1 =
      { CheckInterval := 0, LazyTriggersCheckInterval := 600000000000,
        NoDataCheckInterval := 60000000000, StopCheckingIntervalSeconds := 30,
        MaxParallelLocalChecks := 4, MaxParallelRemoteChecks := 4,
        MaxParallelPrometheusChecks := 4, LogTriggersToLevel := [],
        MetricEventPopBatchSize := 0, MetricEventPopDelay := 0 } := by decide

/-- C1 (amended): a duration field holding a string that does not conform
to the duration grammar (e.g. `"abc"`) does not cause resolution to
fail; the infallible converter maps it to the zero duration, every
duration field of the returned `ResolvedSettings` equals the conversion
of its raw string, and a complete settings object is produced for every
input. -/
theorem C1_theorem (c : checkerConfig) (n : Int) :
    toDuration "abc" = 0 ∧
    (getSettings c n).2.1.CheckInterval = toDuration c.CheckInterval ∧
    (getSettings c n).2.1.NoDataCheckInterval = toDuration c.NoDataCheckInterval ∧
    (getSettings c n).2.1.LazyTriggersCheckInterval = toDuration c.LazyTriggersCheckInterval ∧
    (getSettings c n).2.1.StopCheckingIntervalSeconds =
      durationSeconds (toDuration c.StopCheckingInterval) ∧
    (getSettings c n).2.1.MetricEventPopDelay = toDuration c.MetricEventPopDelay :=
  ⟨rfl, rfl, rfl, rfl, rfl, rfl⟩

/-- C2: for each of the three concurrency fields, a configured value of
exactly 0 resolves to the injected logical-processor count, and any
nonzero configured value (positive or negative) resolves to itself. -/
theorem C2_theorem (c : checkerConfig) (n : Int) :
    (getSettings c n).2.1.MaxParallelLocalChecks =
      (if c.MaxParallelChecks = 0 then n else c.MaxParallelChecks) ∧
    (getSettings c n).2.1.MaxParallelRemoteChecks =
      (if c.MaxParallelRemoteChecks = 0 then n else c.MaxParallelRemoteChecks) ∧
    (getSettings c n).2.1.MaxParallelPrometheusChecks =
      (if c.MaxParallelPrometheusChecks = 0 then n else c.MaxParallelPrometheusChecks) := by
  by_cases h1 : c.MaxParallelChecks = 0 <;>
  by_cases h2 : c.MaxParallelRemoteChecks = 0 <;>
  by_cases h3 : c.MaxParallelPrometheusChecks = 0 <;>
  simp [getSettings, handleParallelChecks, h1, h2, h3]

/-- C3 (counterexample): with `max_parallel_checks = -1` the resolved
local-concurrency field is -1, which is not strictly positive — the
positivity invariant fails for negative configured values. -/
theorem C3_counterexample :
    (getSettings cfgNegative 8).2.1.MaxParallelLocalChecks = -1 ∧
    ¬ 0 < (getSettings cfgNegative 8).2.1.MaxParallelLocalChecks := by decide

/-- C3 (amended): when every configured concurrency value is nonnegative
and the logical-processor count is positive, every concurrency field of
the resolved settings is strictly positive; a negative configured value
is passed through unchanged and escapes the invariant. -/
theorem C3_theorem (c : checkerConfig) (n : Int) (hn : 0 < n)
    (h1 : 0 ≤ c.MaxParallelChecks) (h2 : 0 ≤ c.MaxParallelRemoteChecks)
    (h3 : 0 ≤ c.MaxParallelPrometheusChecks) :
    0 < (getSettings c n).2.1.MaxParallelLocalChecks ∧
    0 < (getSettings c n).2.1.MaxParallelRemoteChecks ∧
    0 < (getSettings c n).2.1.MaxParallelPrometheusChecks := by
  simp only [getSettings, handleParallelChecks]
  refine ⟨?_, ?_, ?_⟩ <;> dsimp only <;> split <;> omega

/-- C3 (witness): the amended invariant at the defaults table with 8
logical processors. -/
theorem C3_witness :
    0 < (getSettings getDefault 8).2.1.MaxParallelLocalChecks ∧
    0 < (getSettings getDefault 8).2.1.MaxParallelRemoteChecks ∧
    0 < (getSettings getDefault 8).2.1.MaxParallelPrometheusChecks :=
  C3_theorem getDefault 8 (by decide) (by decide) (by decide) (by decide)

/-- C4: the compiled `LogTriggersToLevel` table is the one `getSettings`
installs; for every override list its keys are pairwise distinct and are
exactly the identifiers occurring in the list, lookup returns the level
of the identifier's last occurrence, and the list
`[(A, warn), (B, error), (A, debug)]` compiles to exactly two entries
with A mapped to debug and B mapped to error. -/
theorem C4_theorem :
    (∀ (c : checkerConfig) (n : Int),
       (getSettings c n).2.1.LogTriggersToLevel = buildLogTriggersToLevel c.SetLogLevel) ∧
    (∀ l : List triggerLogConfig,
       ((buildLogTriggersToLevel l).map Prod.fst).Nodup ∧
       (∀ k : String,
          k ∈ (buildLogTriggersToLevel l).map Prod.fst ↔ k ∈ l.map triggerLogConfig.ID) ∧
       (∀ k : String, mapLookup (buildLogTriggersToLevel l) k = lastLevel l k)) ∧
    ((buildLogTriggersToLevel [⟨"A", "warn"⟩, ⟨"B", "error"⟩, ⟨"A", "debug"⟩]).length = 2 ∧
     mapLookup (buildLogTriggersToLevel [⟨"A", "warn"⟩, ⟨"B", "error"⟩, ⟨"A", "debug"⟩]) "A" =
       some "debug" ∧
     mapLookup (buildLogTriggersToLevel [⟨"A", "warn"⟩, ⟨"B", "error"⟩, ⟨"A", "debug"⟩]) "B" =
       some "error") := by
  refine ⟨fun c n => rfl, fun l => ⟨?_, fun k => ?_, fun k => mapLookup_buildLog l k⟩, ?_⟩
  · exact nodup_map_fst_foldl l [] (by simp)
  · exact (mem_map_fst_foldl l [] k).trans (by simp)
  · exact ⟨by decide, by decide, by decide⟩

/-- C5: the resolved `StopCheckingIntervalSeconds` is always the parsed
duration's whole-second value truncated toward zero, and the defaults
with `stop_checking_interval = "1500ms"` (1.5 seconds) resolve to 1, not
2. -/
theorem C5_theorem :
    (∀ (c : checkerConfig) (n : Int),
       (getSettings c n).2.1.StopCheckingIntervalSeconds =
         durationSeconds (toDuration c.StopCheckingInterval)) ∧
    toDuration "1500ms" = 1500000000 ∧
    durationSeconds 1500000000 = 1 ∧
    (getSettings cfg1500 4).2.1.StopCheckingIntervalSeconds = 1 :=
  ⟨fun _ _ => rfl, by decide, by decide, by decide⟩

/-- C6 (counterexample): resolution mutates the raw configuration — on
the defaults table (whose concurrency fields are 0) the raw settings
after `getSettings` differ from the input (the zero fields now hold the
CPU count). -/
theorem C6_counterexample : ¬ (getSettings getDefault 8).1 = getDefault := by decide

/-- C6 (amended): resolution is deterministic but not mutation-free: it
rewrites each zero-valued concurrency field of the raw settings to the
CPU count, leaves every other raw field unchanged, and is idempotent —
re-resolving the updated raw settings with the same nonzero CPU count
returns the identical raw settings and the identical resolved
settings. -/
theorem C6_theorem (c : checkerConfig) (n : Int) :
    ((getSettings c n).1.NoDataCheckInterval = c.NoDataCheckInterval ∧
     (getSettings c n).1.StopCheckingInterval = c.StopCheckingInterval ∧
     (getSettings c n).1.CheckInterval = c.CheckInterval ∧
     (getSettings c n).1.LazyTriggersCheckInterval = c.LazyTriggersCheckInterval ∧
     (getSettings c n).1.SetLogLevel = c.SetLogLevel ∧
     (getSettings c n).1.MetricEventPopBatchSize = c.MetricEventPopBatchSize ∧
     (getSettings c n).1.MetricEventPopDelay = c.MetricEventPopDelay) ∧
    ((getSettings c n).1.MaxParallelChecks =
       (if c.MaxParallelChecks = 0 then n else c.MaxParallelChecks) ∧
     (getSettings c n).1.MaxParallelRemoteChecks =
       (if c.MaxParallelRemoteChecks = 0 then n else c.MaxParallelRemoteChecks) ∧
     (getSettings c n).1.MaxParallelPrometheusChecks =
       (if c.MaxParallelPrometheusChecks = 0 then n else c.MaxParallelPrometheusChecks)) ∧
    (n ≠ 0 →
      (getSettings ((getSettings c n).1) n).1 = (getSettings c n).1 ∧
      (getSettings ((getSettings c n).1) n).2.1 = (getSettings c n).2.1) := by
  refine ⟨⟨rfl, rfl, rfl, rfl, rfl, rfl, rfl⟩, ?_, ?_⟩
  · by_cases h1 : c.MaxParallelChecks = 0 <;>
    by_cases h2 : c.MaxParallelRemoteChecks = 0 <;>
    by_cases h3 : c.MaxParallelPrometheusChecks = 0 <;>
    simp [getSettings, handleParallelChecks, h1, h2, h3]
  · intro hn
    by_cases h1 : c.MaxParallelChecks = 0 <;>
    by_cases h2 : c.MaxParallelRemoteChecks = 0 <;>
    by_cases h3 : c.MaxParallelPrometheusChecks = 0 <;>
    simp [getSettings, handleParallelChecks, h1, h2, h3, hn]

/-- C6 (witness): idempotence of resolution on the defaults table with 8
logical processors. -/
theorem C6_witness :
    (getSettings ((getSettings getDefault 8).1) 8).1 = (getSettings getDefault 8).1 ∧
    (getSettings ((getSettings getDefault 8).1) 8).2.1 = (getSettings getDefault 8).2.1 :=
  (C6_theorem getDefault 8).2.2 (by decide)

/-- C7: the defaults provider's checker section holds exactly the literal
defaults — `"60s"`, `"5s"`, `"10m"`, `"30s"`, zero (auto) concurrency
limits, and unset batch size, pop delay and overrides — and resolving
this defaults table with any processor count yields the corresponding
resolved settings (all concurrency limits equal to the count, the stated
durations, an empty override table, zero batch size and pop delay). -/
theorem C7_theorem :
    getDefault =
      { NoDataCheckInterval := "60s", CheckInterval := "5s",
        LazyTriggersCheckInterval := "10m", StopCheckingInterval := "30s",
        MaxParallelChecks := 0, MaxParallelRemoteChecks := 0,
        MaxParallelPrometheusChecks := 0, SetLogLevel := [],
        MetricEventPopBatchSize := 0, MetricEventPopDelay := "" } ∧
    (∀ n : Int, (getSettings getDefault n).2.1 =
      { CheckInterval := 5000000000, LazyTriggersCheckInterval := 600000000000,
        NoDataCheckInterval := 60000000000, StopCheckingIntervalSeconds := 30,
        MaxParallelLocalChecks := n, MaxParallelRemoteChecks := n,
        MaxParallelPrometheusChecks := n, LogTriggersToLevel := [],
        MetricEventPopBatchSize := 0, MetricEventPopDelay := 0 }) :=
  ⟨rfl, fun _ => rfl⟩

/-- C8: when the override list is empty the compiled table is empty, and
the informational record heading the emission reports a count of 0
configured overrides. -/
theorem C8_theorem (c : checkerConfig) (n : Int) (h : c.SetLogLevel = []) :
    (getSettings c n).2.1.LogTriggersToLevel = [] ∧
    (getSettings c n).2.2.head? = some (overrideCountRecord 0) := by
  simp [getSettings, buildLogTriggersToLevel, overrideCountRecord, h]

/-- C8 (witness): the empty-override behavior on the defaults table. -/
theorem C8_witness :
    (getSettings getDefault 4).2.1.LogTriggersToLevel = [] ∧
    (getSettings getDefault 4).2.2.head? = some (overrideCountRecord 0) :=
  C8_theorem getDefault 4 rfl

/-- C9: the informational record reporting the override count heads the
emitted sequence (so it precedes every parallelism-substitution record),
every later record is a CPU-substitution record, and each zero-valued
concurrency category's substitution record — naming the category in its
message and the substituted value — occurs exactly once, a nonzero
category's not at all. -/
theorem C9_theorem (c : checkerConfig) (n : Int) :
    (getSettings c n).2.2.head? =
      some (overrideCountRecord ((buildLogTriggersToLevel c.SetLogLevel).length : Int)) ∧
    (∀ r ∈ (getSettings c n).2.2.tail, r.key = "number_of_cpu") ∧
    ((getSettings c n).2.2.tail.countP (fun r => decide (r = localSubstRecord n)) =
      (if c.MaxParallelChecks = 0 then 1 else 0)) ∧
    ((getSettings c n).2.2.tail.countP (fun r => decide (r = remoteSubstRecord n)) =
      (if c.MaxParallelRemoteChecks = 0 then 1 else 0)) ∧
    ((getSettings c n).2.2.tail.countP (fun r => decide (r = prometheusSubstRecord n)) =
      (if c.MaxParallelPrometheusChecks = 0 then 1 else 0)) := by
  by_cases h1 : c.MaxParallelChecks = 0 <;>
  by_cases h2 : c.MaxParallelRemoteChecks = 0 <;>
  by_cases h3 : c.MaxParallelPrometheusChecks = 0 <;>
  simp [getSettings, handleParallelChecks, h1, h2, h3, List.countP_cons,
    overrideCountRecord, localSubstRecord, remoteSubstRecord, prometheusSubstRecord,
    LogRecord.mk.injEq]

/-- C10: the defaults table leaves `max_parallel_prometheus_checks` at
its zero value even though the defaults literal names only the local and
remote limits, so under pure defaults all three concurrency fields
resolve to the logical-processor count. -/
theorem C10_theorem :
    getDefault.MaxParallelPrometheusChecks = 0 ∧
    (∀ n : Int,
      (getSettings getDefault n).2.1.MaxParallelLocalChecks = n ∧
      (getSettings getDefault n).2.1.MaxParallelRemoteChecks = n ∧
      (getSettings getDefault n).2.1.MaxParallelPrometheusChecks = n) :=
  ⟨rfl, fun _ => ⟨rfl, rfl, rfl⟩⟩

end CheckerConfig
